import Mathlib

/-!
Verification of the CloudCurio RAG knowledge platform against its design
specification.

The JavaScript request handlers of the repository are shallowly embedded as
pure Lean functions.  External collaborators (the embedding model, the LLM,
the D1 document store, the Vectorize index, the KV cache) are modelled as
oracle inputs: each `await`ed external call is represented by an
`Except`-valued outcome supplied to the handler, and the handler threads an
explicit `Store` state and emits a trace of the side effects it performs.
`Date.now()` is an explicit `Nat` parameter.  JavaScript truthiness of the
relevant string-or-undefined values is modelled by `jsFalsy`, and the
`x || y` fallback idiom on response strings by `jsOrElse`.
-/

namespace CloudCurio

/-! ## Basic JavaScript value modelling -/

/-- Vectors returned by the embedding model (opaque payloads here). -/
abbrev Vec := List Rat

/-- A thrown JavaScript error, identified by its message. -/
abbrev JsError := String

/-- Truthiness test for a JSON field holding a string: `!x` in JavaScript is
true exactly when the field is absent (`undefined`) or the empty string. -/
def jsFalsy : Option String → Bool
  | none => true
  | some s => s.isEmpty

/-- The JavaScript idiom `x || d` for a possibly-absent string `x`:
falsy (absent or empty) falls back to the default `d`. -/
def jsOrElse (x : Option String) (d : String) : String :=
  match x with
  | none => d
  | some s => if s.isEmpty then d else s

/-- The JavaScript `Array.join(sep)` over a list of strings. -/
def joinSep (sep : String) : List String → String
  | [] => ""
  | [a] => a
  | a :: rest => a ++ sep ++ joinSep sep rest

/-- Decimal digit characters, little-endian, of a natural number, computed
with explicit fuel so that the definition is structurally recursive.  With
fuel above `n` this is exactly the decimal numeral of `n`, as a JavaScript
template literal renders an integer. -/
def decCharsAux : Nat → Nat → List Char
  | 0, _ => []
  | fuel + 1, n =>
    if n < 10 then [Nat.digitChar n]
    else decCharsAux fuel (n / 10) ++ [Nat.digitChar (n % 10)]

/-- Decimal string of a natural number: the conversion a JavaScript template
literal applies to an integer such as `Date.now()`. -/
def jsNatToString (n : Nat) : String := ⟨decCharsAux (n + 1) n⟩

/-! ## Data model -/

/-- A row of the `knowledge_base` D1 table (`schema/schema.sql`). -/
structure KBDoc where
  title : String
  content : String
  createdAt : Nat
deriving DecidableEq, Repr

/-- A record of the Vectorize index (`vectors.insert` in
`functions/api/knowledge/add.js`). -/
structure VectorRecord where
  id : String
  values : Vec
  metaTitle : String
deriving DecidableEq, Repr

/-- A row of the `blog_posts` D1 table (`schema/schema.sql`). -/
structure BlogPost where
  id : String
  title : String
  content : String
  excerpt : String
  author : String
  status : String
  createdAt : Nat
deriving DecidableEq, Repr

/-- The shared external state: the `knowledge_base` table, the Vectorize
index, the `blog_posts` table, and the KV cache restricted to its single
fixed key `blog_posts` (`none` = no cached entry). -/
structure Store where
  kb : List (String × KBDoc)
  vec : List VectorRecord
  blog : List BlogPost
  cache : Option String
deriving DecidableEq, Repr

/-- Which bindings of `context.env` are configured. -/
structure Env where
  hasAI : Bool
  hasDB : Bool
  hasVectors : Bool
  hasCache : Bool
deriving DecidableEq, Repr

/-- A message of the list passed to the text-generation model. -/
structure ChatTurn where
  role : String
  content : String
deriving DecidableEq, Repr

/-- Result object of a text-generation model call: its `response` field may
be absent. -/
structure GenResult where
  response : Option String
deriving DecidableEq, Repr

/-- Observable side effects performed by a handler, in execution order. -/
inductive Event where
  | embedCall (text : String)
  | genCall (messages : List ChatTurn)
  | docWrite (id : String)
  | vecInsert (id : String)
  | blogWrite (id : String)
  | cacheDelete (key : String)
deriving DecidableEq, Repr

/-- First row of `SELECT ... FROM knowledge_base WHERE id = ?`. -/
def kbLookup (store : List (String × KBDoc)) (id : String) : Option KBDoc :=
  (store.find? (fun p => p.1 == id)).map (fun p => p.2)

/-- Whether the Vectorize index holds a record with the given id. -/
def vecHas (index : List VectorRecord) (id : String) : Bool :=
  index.any (fun r => r.id == id)

/-! ## Content ingestion: `onRequestPost` of `functions/api/knowledge/add.js` -/

/-- Outcomes of the external calls made by one run of the ingest handler,
plus its `Date.now()` reading. -/
structure AddOracle where
  embed : Except JsError Vec
  dbRun : Except JsError Unit
  vecInsert : Except JsError Unit
  now : Nat

/-- Responses of the ingest handler. -/
inductive AddResp where
  | validationError
  | configError
  | serverError (msg : JsError)
  | ok (id : String)
deriving DecidableEq, Repr

/-- HTTP status of an ingest response. -/
def AddResp.status : AddResp → Nat
  | .validationError => 400
  | .configError => 500
  | .serverError _ => 500
  | .ok _ => 200

/-- The id generated for an ingested document: `kb_` followed by the
decimal rendering of `Date.now()`. -/
def kbId (now : Nat) : String := "kb_" ++ jsNatToString now

/-- The text handed to the embedding model by the ingest handler. -/
def addEmbedText (title? content? : Option String) : String :=
  title?.getD "" ++ "\n\n" ++ content?.getD ""

/-- Embedding of `onRequestPost` in `functions/api/knowledge/add.js`
(content ingestion): validate title and content, check bindings, embed the
combined text, insert the row into `knowledge_base`, then insert the vector
into Vectorize.  A thrown external call lands in the catch-all, producing a
500 response.  Returns the response, the resulting state, and the trace of
performed effects. -/
def knowledgeAdd (env : Env) (o : AddOracle) (title? content? : Option String)
    (s : Store) : AddResp × Store × List Event :=
  if jsFalsy title? || jsFalsy content? then
    (.validationError, s, [])
  else if !env.hasDB || !env.hasAI || !env.hasVectors then
    (.configError, s, [])
  else
    match o.embed with
    | .error e => (.serverError e, s, [.embedCall (addEmbedText title? content?)])
    | .ok emb =>
      let id := kbId o.now
      match o.dbRun with
      | .error e => (.serverError e, s, [.embedCall (addEmbedText title? content?)])
      | .ok _ =>
        let s1 := { s with kb := s.kb ++ [(id, ⟨title?.getD "", content?.getD "", o.now⟩)] }
        match o.vecInsert with
        | .error e =>
          (.serverError e, s1, [.embedCall (addEmbedText title? content?), .docWrite id])
        | .ok _ =>
          (.ok id, { s1 with vec := s1.vec ++ [⟨id, emb, title?.getD ""⟩] },
            [.embedCall (addEmbedText title? content?), .docWrite id, .vecInsert id])

/-! ## RAG chat: the chat `onRequestPost` of `functions/api/knowledge/add.js` -/

/-- One match returned by `vectors.query`. -/
structure VMatch where
  id : String
  score : Rat
deriving DecidableEq, Repr

/-- Outcomes of the external calls made by one run of the chat handler: the
query-embedding call, the Vectorize query, and the generation call (a
function of the message list it receives). -/
structure ChatOracle where
  embed : Except JsError Vec
  query : Except JsError (List VMatch)
  gen : List ChatTurn → Except JsError GenResult

/-- Responses of the chat handler. -/
inductive ChatResp where
  | badRequest
  | aiNotConfigured
  | ok (response : String)
  | errorResp (error : JsError) (response : String)
deriving DecidableEq, Repr

/-- HTTP status of a chat response. -/
def ChatResp.status : ChatResp → Nat
  | .badRequest => 400
  | .aiNotConfigured => 500
  | .ok _ => 200
  | .errorResp _ _ => 500

/-- The `response` field of the JSON body of a chat response, when present. -/
def ChatResp.responseText : ChatResp → Option String
  | .badRequest => none
  | .aiNotConfigured => none
  | .ok r => some r
  | .errorResp _ r => some r

/-- The `contextInfo` string assembled by the chat handler: empty unless
Vectorize and D1 are bound, the embedding and query calls both return, the
query yields at least one match, and at least one matched id has a row in
`knowledge_base`.  Any failure inside the retrieval `try` block leaves it
empty (the handler logs and continues without RAG context). -/
def ragContext (store : List (String × KBDoc)) (env : Env) (o : ChatOracle) : String :=
  if env.hasVectors && env.hasDB then
    match o.embed with
    | .error _ => ""
    | .ok _ =>
      match o.query with
      | .error _ => ""
      | .ok ms =>
        if ms.isEmpty then ""
        else
          let validDocs := ms.filterMap fun m =>
            (kbLookup store m.id).map fun d => d.title ++ ": " ++ d.content
          if validDocs.isEmpty then ""
          else "\n\nRelevant context from knowledge base:\n" ++
            joinSep "\n\n" validDocs
  else ""

/-- The message list the chat handler passes to the generation model: the
fixed system turn (its instruction suffix present exactly when the context
is non-empty) and the user turn with the context appended after the
message. -/
def chatMessages (ctxInfo message : String) : List ChatTurn :=
  [⟨"system", "You are a helpful AI assistant. " ++
      (if ctxInfo.isEmpty then "" else
        "Use the provided context to answer questions when relevant.")⟩,
   ⟨"user", message ++ ctxInfo⟩]

/-- Embedding of the chat `onRequestPost` in `functions/api/knowledge/add.js`
(RAG chat): validate the message, check the AI binding, attempt retrieval
(absorbing its failures into an empty context), then call the generation
model; a thrown generation call lands in the catch-all, producing a 500
response that still carries a fallback `response` string. -/
def chat (store : List (String × KBDoc)) (env : Env) (o : ChatOracle)
    (message? : Option String) : ChatResp × List Event :=
  if jsFalsy message? then (.badRequest, [])
  else if !env.hasAI then (.aiNotConfigured, [])
  else
    match o.gen (chatMessages (ragContext store env o) (message?.getD "")) with
    | .error e =>
      (.errorResp e "Sorry, I encountered an error processing your request.",
        [.genCall (chatMessages (ragContext store env o) (message?.getD ""))])
    | .ok r =>
      (.ok (jsOrElse r.response "I apologize, but I could not generate a response."),
        [.genCall (chatMessages (ragContext store env o) (message?.getD ""))])

/-! ## Semantic search: `onRequestGet` of `functions/api/knowledge/search.js` -/

/-- Outcomes of the external calls made by one run of the search handler. -/
structure SearchOracle where
  embed : Except JsError Vec
  query : Except JsError (List VMatch)

/-- One entry of the JSON array returned by the search handler. -/
structure SearchHit where
  id : String
  title : String
  content : String
  score : Rat
deriving DecidableEq, Repr

/-- Responses of the search handler. -/
inductive SearchResp where
  | badRequest
  | configError
  | serverError (msg : JsError)
  | ok (results : List SearchHit)
deriving DecidableEq, Repr

/-- The result list the search handler builds from the Vectorize matches:
each match is resolved against `knowledge_base`, matches whose id has no row
become `null` and are filtered out, and the surviving hits keep the order of
the match list. -/
def searchHits (store : List (String × KBDoc)) (ms : List VMatch) : List SearchHit :=
  ms.filterMap fun m =>
    (kbLookup store m.id).map fun d => ⟨m.id, d.title, d.content, m.score⟩

/-- Embedding of `onRequestGet` in `functions/api/knowledge/search.js`
(semantic search): validate the query parameter, check bindings, embed the
query, run the Vectorize query, then resolve each match against
`knowledge_base`, silently dropping matches without a row. -/
def knowledgeSearch (store : List (String × KBDoc)) (env : Env) (o : SearchOracle)
    (q? : Option String) : SearchResp :=
  if jsFalsy q? then .badRequest
  else if !env.hasAI || !env.hasVectors || !env.hasDB then .configError
  else
    match o.embed with
    | .error e => .serverError e
    | .ok _ =>
      match o.query with
      | .error e => .serverError e
      | .ok ms => .ok (searchHits store ms)

/-! ## Research: `onRequestPost` of the research handler (`src/unnamed/part_003`) -/

/-- Responses of the research handler. -/
inductive ResearchResp where
  | validationError
  | aiNotConfigured
  | serverError (msg : JsError)
  | ok (title content : String) (type? : Option String) (sources : List String)
deriving DecidableEq, Repr

/-- HTTP status of a research response. -/
def ResearchResp.status : ResearchResp → Nat
  | .validationError => 400
  | .aiNotConfigured => 500
  | .serverError _ => 500
  | .ok _ _ _ _ => 200

/-- The base system prompt of the research handler. -/
def researchBasePrompt : String :=
  "You are a research assistant specialized in deep analysis."

/-- The suffix the research handler appends to its system prompt, selected by
the `switch` on the request `type`; any other or absent type appends
nothing. -/
def researchTypeSuffix (type? : Option String) : String :=
  match type? with
  | none => ""
  | some s =>
    if s = "comprehensive" then
      " Provide a comprehensive, well-structured research report with multiple perspectives."
    else if s = "quick" then
      " Provide a concise summary of key points."
    else if s = "comparison" then
      " Compare different approaches, technologies, or concepts systematically."
    else if s = "deep-dive" then
      " Provide an in-depth technical analysis with detailed explanations."
    else ""

/-- The system prompt used for the three research-step calls. -/
def researchSystemPrompt (type? : Option String) : String :=
  researchBasePrompt ++ researchTypeSuffix type?

/-- The `researchSteps` array of the handler: role names and prompts of the
three sequential research phases. -/
def researchSteps (q : String) : List (String × String) :=
  [("Initial Research", "Research the following topic: " ++ q),
   ("Critical Analysis", "Critically analyze: " ++ q),
   ("Synthesis", "Synthesize findings about: " ++ q)]

/-- One collected research finding: the step role name and the generated
content. -/
structure Finding where
  step : String
  content : String
deriving DecidableEq, Repr

/-- The findings collected by the research loop, given the oracle of
generation-call outcomes indexed by call order (calls 0, 1, 2 are the three
steps; call 3 is the final report).  A step whose call throws is logged and
skipped: it contributes no finding, and the loop continues. -/
def researchFindings (o : Nat → Except JsError GenResult) (q : String) : List Finding :=
  (researchSteps q).enum.filterMap fun p =>
    match o p.1 with
    | .error _ => none
    | .ok r => some ⟨p.2.1, jsOrElse r.response ""⟩

/-- The prompt of the final report call, folding the successful findings into
labelled blocks. -/
def researchFinalPrompt (q : String) (findings : List Finding) : String :=
  "Based on the following research findings, create a comprehensive final report about \"" ++
    q ++ "\":\n\n" ++
    joinSep "\n\n" (findings.map fun f => f.step ++ ":\n" ++ f.content)

/-- Embedding of the research `onRequestPost` (`src/unnamed/part_003`):
validate the query, check the AI binding, run the three step calls (each in
its own `try`, so a failed step is skipped), then make the final report call
outside any inner `try` — its failure lands in the catch-all and produces a
500 response.  The oracle maps the call index (0..3) to that call's
outcome. -/
def research (env : Env) (o : Nat → Except JsError GenResult)
    (query? type? : Option String) : ResearchResp × List Event :=
  if jsFalsy query? then (.validationError, [])
  else if !env.hasAI then (.aiNotConfigured, [])
  else
    let q := query?.getD ""
    let sys := researchSystemPrompt type?
    let stepEvents := (researchSteps q).map fun p =>
      Event.genCall [⟨"system", sys⟩, ⟨"user", p.2⟩]
    let findings := researchFindings o q
    let finalMsgs : List ChatTurn :=
      [⟨"system", "You are a research report writer. Create a clear, well-organized final report."⟩,
       ⟨"user", researchFinalPrompt q findings⟩]
    match o 3 with
    | .error e => (.serverError e, stepEvents ++ [.genCall finalMsgs])
    | .ok r =>
      (.ok ("Research Report: " ++ q) (jsOrElse r.response "Research completed")
        type? (findings.map fun f => f.step),
        stepEvents ++ [.genCall finalMsgs])

/-! ## Blog generation: `onRequestPost` of the blog generate handler
(`src/unnamed/part_002`) -/

/-- The parsed fields of a generated blog post. -/
structure BlogFields where
  title : String
  content : String
  excerpt : String
deriving DecidableEq, Repr

/-- Outcomes of the external calls made by one run of the blog generation
handler: the generation call, the `JSON.parse` of its response text (`none`
models a parse failure, triggering the fallback post), the D1 insert, and
`Date.now()`. -/
structure BlogOracle where
  gen : Except JsError GenResult
  parse : Option BlogFields
  dbRun : Except JsError Unit
  now : Nat

/-- Responses of the blog generation handler. -/
inductive BlogResp where
  | configError
  | serverError (msg : JsError)
  | ok (postId title : String)
deriving DecidableEq, Repr

/-- The id generated for a blog post: `post_` followed by the decimal
rendering of `Date.now()`. -/
def postId (now : Nat) : String := "post_" ++ jsNatToString now

/-- Embedding of the blog generation `onRequestPost`
(`src/unnamed/part_002`): check bindings, call the generation model, parse
its response (falling back to a default post on parse failure), insert the
post into `blog_posts`, then delete the `blog_posts` KV cache entry when the
cache binding is present. -/
def blogGenerate (env : Env) (o : BlogOracle) (s : Store) :
    BlogResp × Store × List Event :=
  if !env.hasAI || !env.hasDB then (.configError, s, [])
  else
    match o.gen with
    | .error e => (.serverError e, s, [])
    | .ok r =>
      let postData : BlogFields :=
        match o.parse with
        | some f => f
        | none =>
          ⟨"AI-Generated Blog Post", jsOrElse r.response "Generated content",
            "An AI-generated blog post about technology."⟩
      let pid := postId o.now
      match o.dbRun with
      | .error e => (.serverError e, s, [])
      | .ok _ =>
        let s1 := { s with blog := s.blog ++
          [⟨pid, postData.title, postData.content, postData.excerpt,
            "AI Assistant", "published", o.now⟩] }
        if env.hasCache then
          (.ok pid postData.title, { s1 with cache := none },
            [.blogWrite pid, .cacheDelete "blog_posts"])
        else
          (.ok pid postData.title, s1, [.blogWrite pid])

/-! ## Concrete fixtures used by witnesses and counterexamples -/

/-- An environment with every binding configured. -/
def envAll : Env := ⟨true, true, true, true⟩

/-- The empty external state. -/
def store0 : Store := ⟨[], [], [], none⟩

/-- A state whose KV cache holds a serialized post list under `blog_posts`. -/
def storeCached : Store := ⟨[], [], [], some "CACHED"⟩

/-- A `knowledge_base` table holding one document with id `kb_5`. -/
def kbOne : List (String × KBDoc) := [("kb_5", ⟨"T1", "C1", 5⟩)]

/-- Ingest oracle: every external call succeeds, `Date.now()` reads 77. -/
def oAddOk : AddOracle := ⟨.ok [], .ok (), .ok (), 77⟩

/-- Ingest oracle: the Vectorize insert throws, everything else succeeds. -/
def oAddVecFail : AddOracle := ⟨.ok [], .ok (), .error "vfail", 77⟩

/-- Chat oracle: retrieval succeeds with no matches, generation throws. -/
def oChatGenFail : ChatOracle := ⟨.ok [], .ok [], fun _ => .error "boom"⟩

/-- Chat oracle: the query-embedding call throws, generation succeeds. -/
def oChatEmbedFail : ChatOracle := ⟨.error "efail", .ok [], fun _ => .ok ⟨some "hello"⟩⟩

/-- Search oracle: the Vectorize query returns a match for the stored
`kb_5` and a match for an id absent from `knowledge_base`. -/
def oSearchGhost : SearchOracle := ⟨.ok [], .ok [⟨"kb_5", 1⟩, ⟨"ghost", (1 : Rat) / 2⟩]⟩

/-- Research oracle: the Explore and Critique step calls throw, the
Synthesize step and the final report call succeed. -/
def oResSynOnly : Nat → Except JsError GenResult := fun i =>
  if i = 0 then .error "e0"
  else if i = 1 then .error "e1"
  else if i = 2 then .ok ⟨some "SYN"⟩
  else .ok ⟨some "FINAL"⟩

/-- Research oracle: the three step calls succeed, the final report call
throws. -/
def oResFinalFail : Nat → Except JsError GenResult := fun i =>
  if i = 3 then .error "ffail" else .ok ⟨some "R"⟩

/-- Research oracle: every call succeeds. -/
def oResOk : Nat → Except JsError GenResult := fun _ => .ok ⟨some "R"⟩

/-- Blog generation oracle: every external call succeeds and the response
parses, `Date.now()` reads 88. -/
def oBlogOk : BlogOracle := ⟨.ok ⟨some "raw"⟩, some ⟨"T", "C", "E"⟩, .ok (), 88⟩

/-! ## Decimal rendering: helper lemmas -/

theorem decCharsAux_ne_nil (fuel n : Nat) : decCharsAux (fuel + 1) n ≠ [] := by
  unfold decCharsAux
  split <;> simp

theorem decCharsAux_fuel_irrel :
    ∀ n f1 f2, n < f1 → n < f2 → decCharsAux f1 n = decCharsAux f2 n := by
  intro n
  induction n using Nat.strong_induction_on with
  | _ n ih =>
    intro f1 f2 h1 h2
    cases f1 with
    | zero => omega
    | succ g1 =>
      cases f2 with
      | zero => omega
      | succ g2 =>
        unfold decCharsAux
        by_cases hn : n < 10
        · simp [hn]
        · simp only [hn, if_false]
          have hdiv : n / 10 < n := Nat.div_lt_self (by omega) (by omega)
          rw [ih (n / 10) hdiv g1 g2 (by omega) (by omega)]

theorem digitChar_inj :
    ∀ a, a < 10 → ∀ b, b < 10 → Nat.digitChar a = Nat.digitChar b → a = b := by
  decide

theorem append_singleton_inj {α : Type} {l1 l2 : List α} {a b : α}
    (h : l1 ++ [a] = l2 ++ [b]) : l1 = l2 ∧ a = b := by
  have h2 := congrArg List.reverse h
  simp only [List.reverse_append, List.reverse_cons, List.reverse_nil,
    List.nil_append, List.singleton_append] at h2
  injection h2 with hab hl
  exact ⟨List.reverse_injective hl, hab⟩

theorem decChars_injective :
    ∀ m n, decCharsAux (m + 1) m = decCharsAux (n + 1) n → m = n := by
  intro m
  induction m using Nat.strong_induction_on with
  | _ m ih =>
    intro n h
    unfold decCharsAux at h
    by_cases hm : m < 10 <;> by_cases hn : n < 10
    · simp only [hm, hn, if_true] at h
      injection h with h1 _
      exact digitChar_inj m hm n hn h1
    · exfalso
      simp only [hm, hn, if_true, if_false] at h
      have hlen := congrArg List.length h
      obtain ⟨n', rfl⟩ : ∃ n', n = n' + 1 := ⟨n - 1, by omega⟩
      simp only [List.length_append, List.length_singleton, List.length_cons,
        List.length_nil] at hlen
      have := decCharsAux_ne_nil n' ((n' + 1) / 10)
      have : 1 ≤ (decCharsAux (n' + 1) ((n' + 1) / 10)).length :=
        List.length_pos.mpr this
      omega
    · exfalso
      simp only [hm, hn, if_true, if_false] at h
      have hlen := congrArg List.length h
      obtain ⟨m', rfl⟩ : ∃ m', m = m' + 1 := ⟨m - 1, by omega⟩
      simp only [List.length_append, List.length_singleton, List.length_cons,
        List.length_nil] at hlen
      have := decCharsAux_ne_nil m' ((m' + 1) / 10)
      have : 1 ≤ (decCharsAux (m' + 1) ((m' + 1) / 10)).length :=
        List.length_pos.mpr this
      omega
    · simp only [hm, hn, if_false] at h
      have hmd : m / 10 < m := Nat.div_lt_self (by omega) (by omega)
      have hnd : n / 10 < n := Nat.div_lt_self (by omega) (by omega)
      rw [decCharsAux_fuel_irrel (m / 10) m (m / 10 + 1) (by omega) (by omega),
        decCharsAux_fuel_irrel (n / 10) n (n / 10 + 1) (by omega) (by omega)] at h
      obtain ⟨hpre, hlast⟩ := append_singleton_inj h
      have hq : m / 10 = n / 10 := ih (m / 10) hmd (n / 10) hpre
      have hr : m % 10 = n % 10 :=
        digitChar_inj (m % 10) (Nat.mod_lt _ (by omega)) (n % 10)
          (Nat.mod_lt _ (by omega)) hlast
      omega

theorem jsNatToString_injective :
    ∀ m n, jsNatToString m = jsNatToString n → m = n := by
  intro m n h
  have hd := congrArg String.data h
  exact decChars_injective m n hd

theorem kbId_injective : ∀ m n, kbId m = kbId n → m = n := by
  intro m n h
  have hd := congrArg String.data h
  simp only [kbId, String.data_append] at hd
  have hl := List.append_cancel_left hd
  exact decChars_injective m n hl

/-! ## Ingestion claims -/

/-- C1: an ingest request whose title or content is empty or missing fails
with the validation error (status 400), and nothing happens on that path:
the store is unchanged and the trace is empty — no embedding call, no
document write, no vector insert. -/
theorem knowledgeAdd_validation_no_write (env : Env) (o : AddOracle)
    (title? content? : Option String) (s : Store)
    (h : jsFalsy title? = true ∨ jsFalsy content? = true) :
    knowledgeAdd env o title? content? s = (.validationError, s, []) ∧
    (knowledgeAdd env o title? content? s).1.status = 400 := by
  have hcond : (jsFalsy title? || jsFalsy content?) = true := by
    rcases h with h | h <;> simp [h]
  refine ⟨?_, ?_⟩ <;> simp [knowledgeAdd, hcond, AddResp.status]

/-- Witness for C1 at a concrete empty-title request. -/
theorem knowledgeAdd_validation_no_write_witness :
    knowledgeAdd envAll oAddOk (some "") (some "body") store0 =
      (.validationError, store0, []) ∧
    (knowledgeAdd envAll oAddOk (some "") (some "body") store0).1.status = 400 :=
  knowledgeAdd_validation_no_write envAll oAddOk (some "") (some "body") store0
    (Or.inl (by decide))

theorem knowledgeAdd_trace_shape (env : Env) (o : AddOracle)
    (t? c? : Option String) (s : Store) :
    (knowledgeAdd env o t? c? s).2.2 = [] ∨
    (knowledgeAdd env o t? c? s).2.2 = [Event.embedCall (addEmbedText t? c?)] ∨
    (knowledgeAdd env o t? c? s).2.2 =
      [Event.embedCall (addEmbedText t? c?), Event.docWrite (kbId o.now)] ∨
    (knowledgeAdd env o t? c? s).2.2 =
      [Event.embedCall (addEmbedText t? c?), Event.docWrite (kbId o.now),
        Event.vecInsert (kbId o.now)] := by
  unfold knowledgeAdd
  split
  · exact Or.inl rfl
  split
  · exact Or.inl rfl
  cases o.embed with
  | error e => exact Or.inr (Or.inl rfl)
  | ok v =>
    cases o.dbRun with
    | error e => exact Or.inr (Or.inl rfl)
    | ok u =>
      cases o.vecInsert with
      | error e => exact Or.inr (Or.inr (Or.inl rfl))
      | ok u2 => exact Or.inr (Or.inr (Or.inr rfl))

theorem kbLookup_append_self (l : List (String × KBDoc)) (id : String) (d : KBDoc)
    (h : kbLookup l id = none) : kbLookup (l ++ [(id, d)]) id = some d := by
  unfold kbLookup at h ⊢
  rw [List.find?_append]
  have hf : l.find? (fun p => p.1 == id) = none := by
    cases hx : l.find? (fun p => p.1 == id) with
    | none => rfl
    | some p => rw [hx] at h; simp at h
  rw [hf]
  simp

/-- C4: in every run of the ingest handler the vector insert is issued only
after the document write: whenever the trace contains a vector insert, it is
the full trace with the document write strictly before it.  Moreover, when
the vector insert throws after a successful document write, the run ends
with a 500 response and a state holding the document (retrievable by id)
with no corresponding vector record (not searchable) — never an orphaned
vector. -/
theorem knowledgeAdd_doc_write_before_vec_insert (env : Env) (o : AddOracle)
    (t? c? : Option String) (s : Store) :
    (∀ id, Event.vecInsert id ∈ (knowledgeAdd env o t? c? s).2.2 →
      (knowledgeAdd env o t? c? s).2.2 =
        [Event.embedCall (addEmbedText t? c?), Event.docWrite id,
          Event.vecInsert id]) ∧
    (jsFalsy t? = false → jsFalsy c? = false →
      env.hasDB = true → env.hasAI = true → env.hasVectors = true →
      ∀ e, o.vecInsert = Except.error e →
      ∀ v, o.embed = Except.ok v → o.dbRun = Except.ok () →
      kbLookup s.kb (kbId o.now) = none →
      kbLookup (knowledgeAdd env o t? c? s).2.1.kb (kbId o.now) =
        some ⟨t?.getD "", c?.getD "", o.now⟩ ∧
      (knowledgeAdd env o t? c? s).2.1.vec = s.vec ∧
      (knowledgeAdd env o t? c? s).1 = .serverError e) := by
  constructor
  · intro id hid
    rcases knowledgeAdd_trace_shape env o t? c? s with h | h | h | h <;> rw [h] at hid ⊢
    · simp at hid
    · simp at hid
    · simp at hid
    · simp only [List.mem_cons, List.not_mem_nil, or_false] at hid
      rcases hid with h1 | h1 | h1
      · cases h1
      · cases h1
      · injection h1 with h2
        rw [h2]
  · intro ht hc hdb hai hvec e hve v hemb hdbr hlook
    simp only [knowledgeAdd, ht, hc, hdb, hai, hvec, hemb, hdbr, hve,
      Bool.false_or, Bool.or_false, Bool.not_true, if_false, Bool.or_self]
    refine ⟨?_, rfl, rfl⟩
    exact kbLookup_append_self s.kb (kbId o.now) _ hlook

/-- Witness for C4 at a concrete run whose vector insert throws. -/
theorem knowledgeAdd_doc_write_before_vec_insert_witness :
    kbLookup (knowledgeAdd envAll oAddVecFail (some "t") (some "c") store0).2.1.kb
      (kbId 77) = some ⟨"t", "c", 77⟩ ∧
    (knowledgeAdd envAll oAddVecFail (some "t") (some "c") store0).2.1.vec = [] ∧
    (knowledgeAdd envAll oAddVecFail (some "t") (some "c") store0).1 =
      .serverError "vfail" := by
  have h := (knowledgeAdd_doc_write_before_vec_insert envAll oAddVecFail
    (some "t") (some "c") store0).2 (by decide) (by decide) rfl rfl rfl
    "vfail" rfl [] rfl rfl (by decide)
  exact h

/-- C9 counterexample: two distinct ingest calls (different titles and
contents) issued in the same `Date.now()` millisecond both succeed and
generate the same document id `kb_77`, so generated ids are not globally
unique. -/
theorem knowledgeAdd_same_millisecond_id_collision :
    (knowledgeAdd envAll oAddOk (some "alpha") (some "one") store0).1 =
      .ok "kb_77" ∧
    (knowledgeAdd envAll oAddOk (some "beta") (some "two") store0).1 =
      .ok "kb_77" := by
  decide

theorem knowledgeAdd_ok_id (env : Env) (o : AddOracle) (t? c? : Option String)
    (s : Store) (i : String)
    (h : (knowledgeAdd env o t? c? s).1 = AddResp.ok i) : i = kbId o.now := by
  unfold knowledgeAdd at h
  split at h
  · simp at h
  split at h
  · simp at h
  cases he : o.embed with
  | error e => rw [he] at h; simp at h
  | ok v =>
    rw [he] at h
    cases hd : o.dbRun with
    | error e => rw [hd] at h; simp at h
    | ok u =>
      rw [hd] at h
      cases hv : o.vecInsert with
      | error e => rw [hv] at h; simp at h
      | ok u2 =>
        rw [hv] at h
        simp at h
        exact h.symm

/-- C9 amended: the generated id is `kb_` followed by the millisecond
reading of `Date.now()`, so two successful ingest calls receive distinct
ids exactly when their `Date.now()` readings differ; calls within the same
millisecond collide. -/
theorem knowledgeAdd_distinct_times_distinct_ids (env1 env2 : Env)
    (o1 o2 : AddOracle) (t1 c1 t2 c2 : Option String) (s1 s2 : Store)
    (i1 i2 : String) (hnow : o1.now ≠ o2.now)
    (h1 : (knowledgeAdd env1 o1 t1 c1 s1).1 = .ok i1)
    (h2 : (knowledgeAdd env2 o2 t2 c2 s2).1 = .ok i2) :
    i1 ≠ i2 := by
  rw [knowledgeAdd_ok_id env1 o1 t1 c1 s1 i1 h1,
    knowledgeAdd_ok_id env2 o2 t2 c2 s2 i2 h2]
  intro h
  exact hnow (kbId_injective o1.now o2.now h)

/-- Witness for the amended C9 at two concrete calls one millisecond
apart. -/
theorem knowledgeAdd_distinct_times_distinct_ids_witness :
    ("kb_77" : String) ≠ "kb_78" :=
  knowledgeAdd_distinct_times_distinct_ids envAll envAll oAddOk
    ⟨.ok [], .ok (), .ok (), 78⟩ (some "a") (some "b") (some "c") (some "d")
    store0 store0 "kb_77" "kb_78" (by decide) (by decide) (by decide)

/-! ## Chat claims -/

theorem jsOrElse_isEmpty_false (x : Option String) (d : String)
    (h : d.isEmpty = false) : (jsOrElse x d).isEmpty = false := by
  unfold jsOrElse
  cases x with
  | none => exact h
  | some s =>
    cases hs : s.isEmpty
    · simp [hs]
    · simp [hs, h]

/-- C2 counterexample: a chat request whose generation call throws is
answered with status 500 — an error status, not HTTP-style success — even
though a fallback response string is present. -/
theorem chat_generation_throw_error_status :
    (chat [] envAll oChatGenFail (some "hi")).1 =
      .errorResp "boom" "Sorry, I encountered an error processing your request." ∧
    (chat [] envAll oChatGenFail (some "hi")).1.status = 500 ∧
    ¬(chat [] envAll oChatGenFail (some "hi")).1.status = 200 := by
  decide

/-- C2 amended: for every chat request with the AI binding configured, the
response always carries a non-empty response text (the generated text or an
apology); a generation call that returns yields status 200, while a
generation call that throws yields the fallback text with status 500, never
an unanswered exception. -/
theorem chat_always_returns_text (store : List (String × KBDoc)) (env : Env)
    (o : ChatOracle) (m? : Option String)
    (hm : jsFalsy m? = false) (hai : env.hasAI = true) :
    (∃ t, (chat store env o m?).1.responseText = some t ∧ t.isEmpty = false) ∧
    (∀ e, o.gen (chatMessages (ragContext store env o) (m?.getD "")) = .error e →
      (chat store env o m?).1.status = 500) ∧
    (∀ r, o.gen (chatMessages (ragContext store env o) (m?.getD "")) = .ok r →
      (chat store env o m?).1.status = 200) := by
  cases hg : o.gen (chatMessages (ragContext store env o) (m?.getD "")) with
  | error e =>
    have hc : chat store env o m? =
        (.errorResp e "Sorry, I encountered an error processing your request.",
          [.genCall (chatMessages (ragContext store env o) (m?.getD ""))]) := by
      simp [chat, hm, hai, hg]
    refine ⟨⟨"Sorry, I encountered an error processing your request.",
      by rw [hc]; rfl, by decide⟩, fun e' _ => by rw [hc]; rfl, fun r hr => ?_⟩
    simp at hr
  | ok r =>
    have hc : chat store env o m? =
        (.ok (jsOrElse r.response "I apologize, but I could not generate a response."),
          [.genCall (chatMessages (ragContext store env o) (m?.getD ""))]) := by
      simp [chat, hm, hai, hg]
    refine ⟨⟨jsOrElse r.response "I apologize, but I could not generate a response.",
      by rw [hc]; rfl, jsOrElse_isEmpty_false _ _ (by decide)⟩,
      fun e he => ?_, fun r' _ => by rw [hc]; rfl⟩
    simp at he

/-- Witness for the amended C2 at a concrete throwing generation call. -/
theorem chat_always_returns_text_witness :
    (∃ t, (chat [] envAll oChatGenFail (some "hi")).1.responseText = some t ∧
      t.isEmpty = false) ∧
    (chat [] envAll oChatGenFail (some "hi")).1.status = 500 := by
  have h := chat_always_returns_text [] envAll oChatGenFail (some "hi")
    (by decide) rfl
  exact ⟨h.1, h.2.1 "boom" rfl⟩

/-- C6: when retrieval fails (embedding or vector query throws) or yields
zero matches, the chat handler still calls the generator: the context block
is the empty string appended after the user message (not an omitted turn),
both the system and the user turns are present, and a successful generation
call with non-empty response text is returned as the chat answer. -/
theorem chat_empty_context_still_generates (store : List (String × KBDoc))
    (env : Env) (o : ChatOracle) (m? : Option String)
    (hm : jsFalsy m? = false) (hai : env.hasAI = true)
    (hret : (∃ e, o.embed = Except.error e) ∨ (∃ e, o.query = Except.error e) ∨
      o.query = Except.ok []) :
    ragContext store env o = "" ∧
    (chat store env o m?).2 =
      [Event.genCall [⟨"system", "You are a helpful AI assistant. "⟩,
        ⟨"user", m?.getD "" ++ ""⟩]] ∧
    (∀ r t, o.gen (chatMessages "" (m?.getD "")) = .ok r → r.response = some t →
      t.isEmpty = false → (chat store env o m?).1 = .ok t) := by
  have hctx : ragContext store env o = "" := by
    unfold ragContext
    cases henv : env.hasVectors && env.hasDB
    · simp
    · simp only [if_true]
      rcases hret with ⟨e, he⟩ | ⟨e, he⟩ | hq
      · rw [he]
      · cases hemb : o.embed with
        | error e2 => rfl
        | ok v => rw [he]
      · cases hemb : o.embed with
        | error e2 => rfl
        | ok v => rw [hq]; rfl
  have hmsgs : chatMessages (ragContext store env o) (m?.getD "") =
      [⟨"system", "You are a helpful AI assistant. "⟩,
        ⟨"user", m?.getD "" ++ ""⟩] := by
    have hsys : ("You are a helpful AI assistant. " ++
        if ("" : String).isEmpty = true then "" else
          "Use the provided context to answer questions when relevant.") =
        "You are a helpful AI assistant. " := by decide
    rw [hctx]
    unfold chatMessages
    rw [hsys]
  refine ⟨hctx, ?_, ?_⟩
  · cases hg : o.gen (chatMessages (ragContext store env o) (m?.getD "")) with
    | error e =>
      have hc : chat store env o m? =
          (.errorResp e "Sorry, I encountered an error processing your request.",
            [.genCall (chatMessages (ragContext store env o) (m?.getD ""))]) := by
        simp [chat, hm, hai, hg]
      rw [hc, hmsgs]
    | ok r =>
      have hc : chat store env o m? =
          (.ok (jsOrElse r.response "I apologize, but I could not generate a response."),
            [.genCall (chatMessages (ragContext store env o) (m?.getD ""))]) := by
        simp [chat, hm, hai, hg]
      rw [hc, hmsgs]
  · intro r t hg hr ht
    have hgen : o.gen (chatMessages (ragContext store env o) (m?.getD "")) =
        Except.ok r := by
      rw [hctx]; exact hg
    simp [chat, hm, hai, hgen, jsOrElse, hr, ht]

/-- Witness for C6 at a concrete run whose query-embedding call throws. -/
theorem chat_empty_context_still_generates_witness :
    ragContext [] envAll oChatEmbedFail = "" ∧
    (chat [] envAll oChatEmbedFail (some "hi")).1 = .ok "hello" := by
  have h := chat_empty_context_still_generates [] envAll oChatEmbedFail
    (some "hi") (by decide) rfl (Or.inl ⟨"efail", rfl⟩)
  exact ⟨h.1, h.2.2 ⟨some "hello"⟩ "hello" rfl rfl (by decide)⟩

/-! ## Search claims -/

theorem searchHits_ids (store : List (String × KBDoc)) (ms : List VMatch) :
    (searchHits store ms).map (fun h => h.id) =
      (ms.filter (fun m => (kbLookup store m.id).isSome)).map (fun m => m.id) := by
  induction ms with
  | nil => rfl
  | cons m t ih =>
    unfold searchHits at ih ⊢
    rw [List.filterMap_cons, List.filter_cons]
    cases h : kbLookup store m.id with
    | none => simp only [h, Option.map_none', Option.isSome_none, Bool.false_eq_true,
        if_false]; exact ih
    | some d => simp only [h, Option.map_some', Option.isSome_some, if_true,
        List.map_cons]; rw [ih]

/-- C5: with the embedding and vector query succeeding, the search handler
never errors: it returns exactly the matches resolved against the document
store, a match whose id has no document row is silently omitted from the
result, the surviving hits keep the index order (the match order filtered to
the resolvable ids), and the result is never longer than the match list. -/
theorem knowledgeSearch_drops_missing_ids (store : List (String × KBDoc))
    (env : Env) (o : SearchOracle) (q? : Option String) (ms : List VMatch)
    (hq : jsFalsy q? = false) (hai : env.hasAI = true)
    (hvec : env.hasVectors = true) (hdb : env.hasDB = true)
    (hemb : ∃ v, o.embed = Except.ok v) (hqr : o.query = Except.ok ms) :
    knowledgeSearch store env o q? = .ok (searchHits store ms) ∧
    (∀ m ∈ ms, kbLookup store m.id = none →
      ∀ h ∈ searchHits store ms, ¬h.id = m.id) ∧
    (searchHits store ms).map (fun h => h.id) =
      (ms.filter (fun m => (kbLookup store m.id).isSome)).map (fun m => m.id) ∧
    (searchHits store ms).length ≤ ms.length := by
  obtain ⟨v, hv⟩ := hemb
  refine ⟨by simp [knowledgeSearch, hq, hai, hvec, hdb, hv, hqr],
    ?_, searchHits_ids store ms, List.length_filterMap_le _ _⟩
  intro m _ hnone h hh heq
  unfold searchHits at hh
  rw [List.mem_filterMap] at hh
  obtain ⟨m', _, hmap⟩ := hh
  cases hl : kbLookup store m'.id with
  | none => rw [hl] at hmap; cases hmap
  | some d =>
    rw [hl] at hmap
    simp only [Option.map_some', Option.some.injEq] at hmap
    rw [← hmap] at heq
    have heq' : m'.id = m.id := heq
    rw [heq'] at hl
    rw [hl] at hnone
    cases hnone

/-- Witness for C5: a concrete index holding one resolvable id and one id
absent from the document store. -/
theorem knowledgeSearch_drops_missing_ids_witness :
    knowledgeSearch kbOne envAll oSearchGhost (some "q") =
      .ok [⟨"kb_5", "T1", "C1", 1⟩] ∧
    (searchHits kbOne [⟨"kb_5", 1⟩, ⟨"ghost", (1 : Rat) / 2⟩]).length ≤ 2 := by
  have h := knowledgeSearch_drops_missing_ids kbOne envAll oSearchGhost
    (some "q") [⟨"kb_5", 1⟩, ⟨"ghost", (1 : Rat) / 2⟩]
    (by decide) rfl rfl rfl ⟨[], rfl⟩ rfl
  have hev : searchHits kbOne [⟨"kb_5", 1⟩, ⟨"ghost", (1 : Rat) / 2⟩] =
      [⟨"kb_5", "T1", "C1", 1⟩] := by decide
  refine ⟨?_, ?_⟩
  · rw [h.1, hev]
  · exact h.2.2.2

/-! ## Research claims -/

/-- C3 counterexample: with the Explore and Critique calls failing and the
Synthesize and final calls succeeding, the research handler does return a
report built from the one surviving finding, but its `sources` list is
`["Synthesis"]` — the role string of the code's third step — and not the
claimed `["Synthesize"]`. -/
theorem research_sources_literal_mismatch :
    (research envAll oResSynOnly (some "q") none).1 =
      .ok "Research Report: q" "FINAL" none ["Synthesis"] ∧
    ¬(["Synthesis"] : List String) = ["Synthesize"] := by
  decide

/-- C3 amended: when the Explore and Critique step calls fail but the
Synthesize step and the final call succeed, the findings list holds exactly
the Synthesize finding, the final report is still produced (its prompt
folding in only that finding), and `sources` is exactly `["Synthesis"]`,
the code's name for the phase that succeeded. -/
theorem research_synthesize_only_report (env : Env)
    (o : Nat → Except JsError GenResult) (q? type? : Option String)
    (hq : jsFalsy q? = false) (hai : env.hasAI = true)
    (e0 e1 : JsError) (r2 r3 : GenResult)
    (h0 : o 0 = .error e0) (h1 : o 1 = .error e1)
    (h2 : o 2 = .ok r2) (h3 : o 3 = .ok r3) :
    researchFindings o (q?.getD "") = [⟨"Synthesis", jsOrElse r2.response ""⟩] ∧
    (research env o q? type?).1 =
      .ok ("Research Report: " ++ q?.getD "")
        (jsOrElse r3.response "Research completed") type? ["Synthesis"] ∧
    researchFinalPrompt (q?.getD "") (researchFindings o (q?.getD "")) =
      "Based on the following research findings, create a comprehensive final report about \"" ++
        q?.getD "" ++ "\":\n\n" ++ ("Synthesis:\n" ++ jsOrElse r2.response "") := by
  have hf : researchFindings o (q?.getD "") =
      [⟨"Synthesis", jsOrElse r2.response ""⟩] := by
    unfold researchFindings researchSteps
    simp [List.enum, List.enumFrom, h0, h1, h2]
  refine ⟨hf, ?_, ?_⟩
  · simp [research, hq, hai, h3, hf]
  · rw [hf]
    unfold researchFinalPrompt
    simp only [List.map_cons, List.map_nil, joinSep]
    rw [show (("Synthesis" ++ ":\n") = "Synthesis:\n") from by decide]

/-- Witness for the amended C3 at the concrete two-failures oracle. -/
theorem research_synthesize_only_report_witness :
    (research envAll oResSynOnly (some "q") none).1 =
      .ok "Research Report: q" "FINAL" none ["Synthesis"] := by
  have h := research_synthesize_only_report envAll oResSynOnly (some "q") none
    (by decide) rfl "e0" "e1" ⟨some "SYN"⟩ ⟨some "FINAL"⟩ rfl rfl rfl rfl
  rw [h.2.1]
  decide

/-- C7: when the final report call throws, the research handler surfaces an
explicit failure (the 500 error response carrying the thrown message), not a
partial or empty report: no success response is returned at all. -/
theorem research_final_failure_is_fatal (env : Env)
    (o : Nat → Except JsError GenResult) (q? t? : Option String)
    (hq : jsFalsy q? = false) (hai : env.hasAI = true)
    (e : JsError) (hfinal : o 3 = .error e) :
    (research env o q? t?).1 = .serverError e ∧
    (research env o q? t?).1.status = 500 ∧
    ∀ ti c ty srcs, ¬(research env o q? t?).1 = .ok ti c ty srcs := by
  have hr : (research env o q? t?).1 = .serverError e := by
    simp [research, hq, hai, hfinal]
  refine ⟨hr, by rw [hr]; rfl, ?_⟩
  intro ti c ty srcs h
  rw [hr] at h
  cases h

/-- Witness for C7 at a concrete throwing final call. -/
theorem research_final_failure_is_fatal_witness :
    (research envAll oResFinalFail (some "q") (some "quick")).1 =
      .serverError "ffail" ∧
    (research envAll oResFinalFail (some "q") (some "quick")).1.status = 500 := by
  have h := research_final_failure_is_fatal envAll oResFinalFail (some "q")
    (some "quick") (by decide) rfl "ffail" rfl
  exact ⟨h.1, h.2.1⟩

/-- C10: a research request whose `type` is absent or not one of the four
known strings is not rejected: the system prompt stays the unmodified base
prompt, the response is not the validation error, and when the final call
succeeds a report is returned. -/
theorem research_unknown_type_not_rejected (env : Env)
    (o : Nat → Except JsError GenResult) (q? t? : Option String)
    (hq : jsFalsy q? = false) (hai : env.hasAI = true)
    (ht : ∀ s, t? = some s → ¬s = "comprehensive" ∧ ¬s = "quick" ∧
      ¬s = "comparison" ∧ ¬s = "deep-dive") :
    researchSystemPrompt t? = researchBasePrompt ∧
    ¬(research env o q? t?).1 = .validationError ∧
    (∀ r, o 3 = .ok r → (research env o q? t?).1 =
      .ok ("Research Report: " ++ q?.getD "")
        (jsOrElse r.response "Research completed") t?
        ((researchFindings o (q?.getD "")).map (fun f => f.step))) := by
  have hsuf : researchTypeSuffix t? = "" := by
    cases t? with
    | none => rfl
    | some s =>
      obtain ⟨hn1, hn2, hn3, hn4⟩ := ht s rfl
      simp [researchTypeSuffix, hn1, hn2, hn3, hn4]
  have hsys : researchSystemPrompt t? = researchBasePrompt := by
    rw [researchSystemPrompt, hsuf]
    exact String.append_empty _
  refine ⟨hsys, ?_, ?_⟩
  · cases h3 : o 3 with
    | error e =>
      have hr : (research env o q? t?).1 = .serverError e := by
        simp [research, hq, hai, h3]
      rw [hr]
      intro hco
      cases hco
    | ok r =>
      have hr : (research env o q? t?).1 =
          .ok ("Research Report: " ++ q?.getD "")
            (jsOrElse r.response "Research completed") t?
            ((researchFindings o (q?.getD "")).map (fun f => f.step)) := by
        simp [research, hq, hai, h3]
      rw [hr]
      intro hco
      cases hco
  · intro r h3
    simp [research, hq, hai, h3]

/-- Witness for C10 at a concrete unknown research type. -/
theorem research_unknown_type_not_rejected_witness :
    researchSystemPrompt (some "exhaustive") = researchBasePrompt ∧
    (research envAll oResOk (some "q") (some "exhaustive")).1 =
      .ok "Research Report: q" "R" (some "exhaustive")
        ["Initial Research", "Critical Analysis", "Synthesis"] := by
  have h := research_unknown_type_not_rejected envAll oResOk (some "q")
    (some "exhaustive") (by decide) rfl
    (fun s hs => by
      injection hs with hs2
      rw [← hs2]
      exact ⟨by decide, by decide, by decide, by decide⟩)
  refine ⟨h.1, ?_⟩
  rw [h.2.2 ⟨some "R"⟩ rfl]
  decide

/-! ## Cache claims -/

/-- C8 counterexample: a fully successful ingest run over a state whose
`blog_posts` cache entry is populated leaves the entry exactly as it was and
performs no cache deletion, so successful ingestion does not invalidate the
cached list. -/
theorem knowledgeAdd_does_not_delete_cache :
    (knowledgeAdd envAll oAddOk (some "t") (some "c") storeCached).1 =
      .ok "kb_77" ∧
    (knowledgeAdd envAll oAddOk (some "t") (some "c") storeCached).2.1.cache =
      some "CACHED" ∧
    ¬Event.cacheDelete "blog_posts" ∈
      (knowledgeAdd envAll oAddOk (some "t") (some "c") storeCached).2.2 := by
  decide

/-- C8 amended: the `blog_posts` cache entry is invalidated by blog-post
generation, not by knowledge ingestion: every run of the ingest handler
leaves the cache entry untouched, while every successful run of the blog
generation handler with the cache binding present deletes the entry. -/
theorem cache_invalidated_by_blog_generation_not_ingest (env : Env)
    (oA : AddOracle) (oB : BlogOracle) (t? c? : Option String) (s sB : Store) :
    (knowledgeAdd env oA t? c? s).2.1.cache = s.cache ∧
    (env.hasAI = true → env.hasDB = true → env.hasCache = true →
      ∀ r, oB.gen = .ok r → oB.dbRun = .ok () →
      (blogGenerate env oB sB).2.1.cache = none ∧
      Event.cacheDelete "blog_posts" ∈ (blogGenerate env oB sB).2.2 ∧
      ∃ ti, (blogGenerate env oB sB).1 = .ok (postId oB.now) ti) := by
  constructor
  · unfold knowledgeAdd
    split
    · rfl
    split
    · rfl
    cases oA.embed with
    | error e => rfl
    | ok v =>
      cases oA.dbRun with
      | error e => rfl
      | ok u =>
        cases oA.vecInsert with
        | error e => rfl
        | ok u2 => rfl
  · intro hai hdb hcache r hg hdbr
    simp only [blogGenerate, hai, hdb, hcache, hg, hdbr, Bool.not_true,
      Bool.or_self, if_false, if_true]
    exact ⟨rfl, by simp, ⟨_, rfl⟩⟩

/-- Witness for the amended C8: a concrete ingest run and a concrete blog
generation run over a populated cache. -/
theorem cache_invalidated_by_blog_generation_not_ingest_witness :
    (knowledgeAdd envAll oAddOk (some "a") (some "b") storeCached).2.1.cache =
      some "CACHED" ∧
    (blogGenerate envAll oBlogOk storeCached).2.1.cache = none ∧
    Event.cacheDelete "blog_posts" ∈ (blogGenerate envAll oBlogOk storeCached).2.2 := by
  have h := cache_invalidated_by_blog_generation_not_ingest envAll oAddOk
    oBlogOk (some "a") (some "b") storeCached storeCached
  have h2 := h.2 rfl rfl rfl ⟨some "raw"⟩ rfl rfl
  exact ⟨h.1, h2.1, h2.2.1⟩

end CloudCurio
